import Mathlib

/-!
Formal model of the tr-messenger transport core (Rust, `src/src-tauri/src`).

Shallow embedding conventions:
* Bytes are `Nat` values; byte sequences are `List Nat`. Wherever Rust
  truncates to a machine integer the model applies `% 2 ^ w` explicitly.
* Fallible Rust functions returning `Result<T>` become
  `Except MessengerError T`; a Rust panic (out-of-range slice index) is
  modelled as an `Except.error (.Internal ...)` branch, flagged in a comment.
* `uuid::Uuid` values and `chrono`/`Instant` timestamps are modelled as `Nat`.
* External cryptographic primitives (the `sha2`, `aes_gcm`, `p256` crates)
  are not repository code; they enter the model as explicit parameters:
  a digest function `H : List Nat → List Nat`, an AEAD pair `E`/`D`, and an
  elliptic-curve point type `Point` carrying an `AddCommMonoid` structure
  with scalar multiplication `•` by `Nat` scalars (the ECDH group action).
* Randomness (`rand::thread_rng`) is passed in as explicit `Nat` draws.
-/

namespace TrMessenger

/-- Error taxonomy, from `src/src-tauri/src/error.rs` (`MessengerError`).
Only the variants reached by the modelled code paths are included; the
`io::Error` / `serde_json::Error` payloads are modelled as strings. -/
inductive MessengerError where
  | Network (msg : String)
  | Serialization (msg : String)
  | Encryption (msg : String)
  | Protocol (msg : String)
  | Internal (msg : String)
  | AlreadyConnected
  | NotConnected
  deriving DecidableEq, Repr

deriving instance DecidableEq for Except

/-- `PROTOCOL_VERSION` from `src/src-tauri/src/protocol.rs`. -/
def PROTOCOL_VERSION : Nat := 1

/-- `max_message_size` default from `src/src-tauri/src/config.rs`
(`SecurityConfig::default`, 1 MiB). -/
def MAX_MESSAGE_SIZE : Nat := 1024 * 1024

/-- `u32::to_be_bytes`. -/
def u32ToBeBytes (n : Nat) : List Nat :=
  [n / 2 ^ 24 % 256, n / 2 ^ 16 % 256, n / 2 ^ 8 % 256, n % 256]

/-- `u32::from_be_bytes`. -/
def u32FromBeBytes (b0 b1 b2 b3 : Nat) : Nat :=
  ((b0 * 256 + b1) * 256 + b2) * 256 + b3

/-- `usize::to_be_bytes` on the 64-bit targets a Tauri desktop app is
compiled for (8 bytes, big endian). -/
def usizeToBeBytes (n : Nat) : List Nat :=
  [n / 2 ^ 56 % 256, n / 2 ^ 48 % 256, n / 2 ^ 40 % 256, n / 2 ^ 32 % 256,
   n / 2 ^ 24 % 256, n / 2 ^ 16 % 256, n / 2 ^ 8 % 256, n % 256]

/-- `MessageHeader` from `src/src-tauri/src/protocol.rs`. -/
structure MessageHeader where
  version : Nat
  message_type : Nat
  flags : Nat
  length : Nat
  deriving DecidableEq, Repr

/-- `MessageHeader::to_bytes`: `[version][type][flags][reserved=0][length:u32 BE]`. -/
def MessageHeader.to_bytes (h : MessageHeader) : List Nat :=
  [h.version, h.message_type, h.flags, 0] ++ u32ToBeBytes h.length

/-- `MessageHeader::from_bytes`: rejects inputs shorter than 8 bytes and a
version byte differing from `PROTOCOL_VERSION`; reads type, flags and the
big-endian length without further validation. -/
def MessageHeader.from_bytes (bytes : List Nat) : Except MessengerError MessageHeader :=
  if bytes.length < 8 then
    .error (.Protocol "Invalid header length")
  else
    let version := bytes.getD 0 0
    if version ≠ PROTOCOL_VERSION then
      .error (.Protocol "Unsupported protocol version")
    else
      .ok { version := version,
            message_type := bytes.getD 1 0,
            flags := bytes.getD 2 0,
            length := u32FromBeBytes (bytes.getD 4 0) (bytes.getD 5 0)
                        (bytes.getD 6 0) (bytes.getD 7 0) }

theorem u32FromBeBytes_u32ToBeBytes (l : Nat) (hl : l < 2 ^ 32) :
    u32FromBeBytes (l / 2 ^ 24 % 256) (l / 2 ^ 16 % 256) (l / 2 ^ 8 % 256) (l % 256) = l := by
  unfold u32FromBeBytes
  omega

theorem from_bytes_to_bytes_eq (t f l : Nat) (hl : l < 2 ^ 32) :
    MessageHeader.from_bytes (MessageHeader.to_bytes ⟨PROTOCOL_VERSION, t, f, l⟩) =
      .ok ⟨PROTOCOL_VERSION, t, f, l⟩ := by
  simp only [MessageHeader.to_bytes, MessageHeader.from_bytes, u32ToBeBytes]
  simp only [List.cons_append, List.nil_append, List.length_cons, List.length_nil,
    List.getD_cons_zero, List.getD_cons_succ]
  norm_num [PROTOCOL_VERSION]
  unfold u32FromBeBytes
  omega

/-- C8: for every valid header (any kind code, any flags byte, any u32
length, version equal to the supported constant), decoding the 8-byte
encoding returns a header equal to the original. -/
theorem c8_header_decode_encode_roundtrip (t f l : Nat)
    (ht : t < 256) (hf : f < 256) (hl : l < 2 ^ 32) :
    MessageHeader.from_bytes (MessageHeader.to_bytes ⟨PROTOCOL_VERSION, t, f, l⟩) =
      .ok ⟨PROTOCOL_VERSION, t, f, l⟩ :=
  from_bytes_to_bytes_eq t f l hl

/-- Witness for C8 at kind 9 (Acknowledgment), flags 5, length 1000. -/
theorem c8_header_decode_encode_roundtrip_witness :
    (9 : Nat) < 256 ∧ (5 : Nat) < 256 ∧ (1000 : Nat) < 2 ^ 32 ∧
      MessageHeader.from_bytes (MessageHeader.to_bytes ⟨PROTOCOL_VERSION, 9, 5, 1000⟩) =
        .ok ⟨PROTOCOL_VERSION, 9, 5, 1000⟩ :=
  ⟨by norm_num, by norm_num, by norm_num,
    c8_header_decode_encode_roundtrip 9 5 1000 (by norm_num) (by norm_num) (by norm_num)⟩

/-- C3 counterexample: the 8-byte header `[1, 1, 0, 0, 255, 255, 255, 255]`
declares a payload length of 4294967295 bytes, far above the configured
maximum of 1 MiB, yet `MessageHeader::from_bytes` decodes it successfully
instead of failing. -/
theorem c3_counterexample_oversized_header_accepted :
    MessageHeader.from_bytes [1, 1, 0, 0, 255, 255, 255, 255] =
        .ok ⟨1, 1, 0, 4294967295⟩ ∧
      MAX_MESSAGE_SIZE < 4294967295 := by
  constructor
  · decide
  · decide

/-- C3 amended: header decoding enforces no maximum on the declared payload
length.  Every 8-byte header carrying the supported version decodes
successfully even when its declared length exceeds the configured
`max_message_size`; `ProtocolHandler::receive_message` then allocates a
buffer of exactly that declared size on behalf of the peer. -/
theorem c3_amended_no_length_maximum (t f l : Nat)
    (ht : t < 256) (hf : f < 256) (hl : l < 2 ^ 32) (hbig : MAX_MESSAGE_SIZE < l) :
    MessageHeader.from_bytes (MessageHeader.to_bytes ⟨PROTOCOL_VERSION, t, f, l⟩) =
      .ok ⟨PROTOCOL_VERSION, t, f, l⟩ :=
  from_bytes_to_bytes_eq t f l hl

/-- Witness for the amended C3 at kind 1, flags 0, length 2^31 (> 1 MiB). -/
theorem c3_amended_no_length_maximum_witness :
    (1 : Nat) < 256 ∧ (0 : Nat) < 256 ∧ (2 ^ 31 : Nat) < 2 ^ 32 ∧
      MAX_MESSAGE_SIZE < 2 ^ 31 ∧
      MessageHeader.from_bytes (MessageHeader.to_bytes ⟨PROTOCOL_VERSION, 1, 0, 2 ^ 31⟩) =
        .ok ⟨PROTOCOL_VERSION, 1, 0, 2 ^ 31⟩ :=
  ⟨by norm_num, by norm_num, by norm_num, by norm_num [MAX_MESSAGE_SIZE],
    c3_amended_no_length_maximum 1 0 (2 ^ 31) (by norm_num) (by norm_num) (by norm_num)
      (by norm_num [MAX_MESSAGE_SIZE])⟩

/-! ## Secure-message container (`src/src-tauri/src/encryption.rs`, `SecureMessage`) -/

/-- `SecureMessage` from `src/src-tauri/src/encryption.rs`: MAC-authenticated
ciphertext.  `encrypted_data` is `[nonce:12B][AEAD ciphertext]`; `mac` is a
32-byte digest. -/
structure SecureMessage where
  encrypted_data : List Nat
  mac : List Nat
  deriving DecidableEq, Repr

/-- `SecureMessage::to_bytes`.  The source writes
`self.encrypted_data.len().to_be_bytes()`, i.e. the `usize` length — eight
big-endian bytes on the 64-bit targets this desktop app is built for —
followed by the encrypted bytes and the MAC. -/
def SecureMessage.to_bytes (m : SecureMessage) : List Nat :=
  usizeToBeBytes m.encrypted_data.length ++ m.encrypted_data ++ m.mac

/-- `SecureMessage::from_bytes`: requires at least 4 + 32 bytes, reads a
4-byte big-endian `u32` length, then slices the encrypted bytes and the
32-byte MAC.  The Rust slices `data[4..4 + length]` and
`data[4 + length..4 + length + 32]` panic when they overrun `data`; the
panic is modelled as the `.Internal` error branch. -/
def SecureMessage.from_bytes (data : List Nat) : Except MessengerError SecureMessage :=
  if data.length < 4 + 32 then
    .error (.Encryption "Invalid secure message data")
  else
    let length := u32FromBeBytes (data.getD 0 0) (data.getD 1 0) (data.getD 2 0) (data.getD 3 0)
    if 4 + length + 32 ≤ data.length then
      .ok { encrypted_data := (data.drop 4).take length,
            mac := (data.drop (4 + length)).take 32 }
    else
      .error (.Internal "slice index out of range")

/-- The failing input for C1: a secure message with one encrypted byte and a
MAC of 32 copies of 2. -/
def c1FailingMessage : SecureMessage :=
  { encrypted_data := [1], mac := List.replicate 32 2 }

/-- C1: evaluation of the code at the failing input.  `to_bytes` emits an
8-byte length prefix (`usize::to_be_bytes`), not the 4-byte `u32 BE` prefix
the claim states, so the first four serialized bytes are `[0, 0, 0, 0]`
rather than the length 1; and `from_bytes (to_bytes m)` returns a message
with empty `encrypted_data` and a garbled MAC instead of `m`. -/
theorem c1_length_prefix_mismatch :
    (SecureMessage.to_bytes c1FailingMessage).take 4 ≠
        u32ToBeBytes c1FailingMessage.encrypted_data.length ∧
      (SecureMessage.to_bytes c1FailingMessage).length = 8 + 1 + 32 ∧
      SecureMessage.from_bytes (SecureMessage.to_bytes c1FailingMessage) =
        .ok { encrypted_data := [],
              mac := [0, 0, 0, 1, 1] ++ List.replicate 27 2 } ∧
      ({ encrypted_data := [],
         mac := [0, 0, 0, 1, 1] ++ List.replicate 27 2 } : SecureMessage) ≠
        c1FailingMessage := by
  refine ⟨by decide, by decide, by decide, by decide⟩

/-! ## MAC and authenticated encryption (`src/src-tauri/src/encryption.rs`)

The SHA-256 digest (`sha2` crate) and the AES-256-GCM cipher (`aes_gcm`
crate) are external primitives, not repository code.  They enter the model
as parameters: a digest `H : List Nat → List Nat` and a keyed AEAD pair
`E` (encrypt) / `D` (decrypt, fallible).  Theorems about MAC unforgeability
assume `H` is injective — the collision-free digest idealization standard
in protocol verification, which is exactly the property the specification
appeals to when it promises that any modification is detected. -/

/-- ASCII bytes of a string constant baked into the source. -/
def strBytes (s : String) : List Nat := s.toList.map Char.toNat

/-- The domain label `b"tcp-messenger-mac"` from `MessageAuthenticator::create_mac`. -/
def MAC_DOMAIN_LABEL : List Nat := strBytes "tcp-messenger-mac"

/-- The protocol constant `b"tcp-messenger-v1"` from `KeyPair::derive_key`. -/
def KDF_PROTOCOL_LABEL : List Nat := strBytes "tcp-messenger-v1"

/-- The purpose label `b"encryption"` from `KeyPair::perform_key_exchange`. -/
def INFO_ENCRYPTION : List Nat := strBytes "encryption"

/-- The purpose label `b"mac"` from `KeyPair::perform_key_exchange`. -/
def INFO_MAC : List Nat := strBytes "mac"

/-- `MessageAuthenticator::create_mac`: digest of key ‖ message ‖ domain label. -/
def MessageAuthenticator.create_mac (H : List Nat → List Nat)
    (key message : List Nat) : List Nat :=
  H (key ++ message ++ MAC_DOMAIN_LABEL)

/-- `MessageAuthenticator::verify_mac`: recompute and compare. -/
def MessageAuthenticator.verify_mac (H : List Nat → List Nat)
    (key message mac : List Nat) : Bool :=
  MessageAuthenticator.create_mac H key message = mac

/-- `EncryptionEngine::encrypt_message`: encrypt under a fresh random nonce
and prepend the 12-byte nonce to the ciphertext.  `E key nonce plaintext`
is the external AEAD encryption. -/
def EncryptionEngine.encrypt_message (E : List Nat → List Nat → List Nat → List Nat)
    (key nonce message : List Nat) : List Nat :=
  nonce ++ E key nonce message

/-- `EncryptionEngine::decrypt_message`: split off the 12-byte nonce and
invoke the external AEAD decryption `D key nonce ciphertext`. -/
def EncryptionEngine.decrypt_message
    (D : List Nat → List Nat → List Nat → Option (List Nat))
    (key encrypted_data : List Nat) : Except MessengerError (List Nat) :=
  if encrypted_data.length < 12 then
    .error (.Encryption "Invalid encrypted data length")
  else
    match D key (encrypted_data.take 12) (encrypted_data.drop 12) with
    | some plaintext => .ok plaintext
    | none => .error (.Encryption "Failed to decrypt message")

/-- `SecureMessage::encrypt`: encrypt the plaintext under `encryption_key`
(with the fresh nonce drawn by `thread_rng`), then MAC the nonce-prefixed
ciphertext under `mac_key`. -/
def SecureMessage.encrypt (H : List Nat → List Nat)
    (E : List Nat → List Nat → List Nat → List Nat)
    (plaintext encryption_key mac_key nonce : List Nat) : SecureMessage :=
  let encrypted_data := EncryptionEngine.encrypt_message E encryption_key nonce plaintext
  { encrypted_data := encrypted_data,
    mac := MessageAuthenticator.create_mac H mac_key encrypted_data }

/-- `SecureMessage::decrypt`: verify the MAC first and fail with
`Encryption "MAC verification failed"` before any use of the cipher; only
on success is `EncryptionEngine::decrypt_message` reached. -/
def SecureMessage.decrypt (H : List Nat → List Nat)
    (D : List Nat → List Nat → List Nat → Option (List Nat))
    (m : SecureMessage) (encryption_key mac_key : List Nat) :
    Except MessengerError (List Nat) :=
  if ¬ MessageAuthenticator.verify_mac H mac_key m.encrypted_data m.mac then
    .error (.Encryption "MAC verification failed")
  else
    EncryptionEngine.decrypt_message D encryption_key m.encrypted_data

/-- Flip bit `i` of a byte sequence (bit `i % 8` of byte `i / 8`). -/
def flipBit (bs : List Nat) (i : Nat) : List Nat :=
  bs.set (i / 8) (bs.getD (i / 8) 0 ^^^ 2 ^ (i % 8))

theorem xor_two_pow_ne (n k : Nat) : n ^^^ 2 ^ k ≠ n := by
  intro h
  have hbit := congrArg (fun m => Nat.testBit m k) h
  simp [Nat.testBit_xor] at hbit

theorem flipBit_ne (bs : List Nat) (i : Nat) (h : i < 8 * bs.length) :
    flipBit bs i ≠ bs := by
  intro he
  have hj : i / 8 < bs.length := by omega
  have hget := congrArg (fun l => l.getD (i / 8) 0) he
  simp only [flipBit] at hget
  rw [List.getD_eq_getElem?_getD, List.getElem?_set_self (by simpa using hj)] at hget
  simp only [Option.map_some, Option.getD_some, List.getD_eq_getElem?_getD] at hget
  exact xor_two_pow_ne (bs.getD (i / 8) 0) (i % 8)
      (by simpa [List.getD_eq_getElem?_getD] using hget)

theorem create_mac_ne_of_message_ne (H : List Nat → List Nat)
    (hH : Function.Injective H) (key m₁ m₂ : List Nat) (hne : m₁ ≠ m₂) :
    MessageAuthenticator.create_mac H key m₁ ≠ MessageAuthenticator.create_mac H key m₂ := by
  intro h
  apply hne
  have h2 := hH h
  rw [List.append_assoc, List.append_assoc key m₂] at h2
  have h3 := List.append_cancel_left h2
  exact List.append_cancel_right h3

theorem decrypt_fails_of_bad_mac (H : List Nat → List Nat)
    (D : List Nat → List Nat → List Nat → Option (List Nat))
    (m : SecureMessage) (ek mk : List Nat)
    (hbad : MessageAuthenticator.create_mac H mk m.encrypted_data ≠ m.mac) :
    SecureMessage.decrypt H D m ek mk = .error (.Encryption "MAC verification failed") := by
  simp [SecureMessage.decrypt, MessageAuthenticator.verify_mac, hbad]

/-- C6: for every `SecureMessage` produced by `encrypt` under keys
`(ek, mk)`, flipping any single bit of its ciphertext (`encrypted_data`) or
of its MAC makes `decrypt` under `(ek, mk)` fail with the MAC-verification
error, and the cipher decryption step is never invoked on the modified
data: the result is the same for *every* cipher decryption function `D`,
so the outcome cannot depend on any decryption of the tampered bytes.
`H` is the external SHA-256 digest, idealized as injective (collision-free). -/
theorem c6_bit_flip_rejected_before_decryption (H : List Nat → List Nat)
    (hH : Function.Injective H)
    (E : List Nat → List Nat → List Nat → List Nat)
    (plaintext ek mk nonce : List Nat) (i : Nat) :
    (i < 8 * (SecureMessage.encrypt H E plaintext ek mk nonce).encrypted_data.length →
      ∀ D, SecureMessage.decrypt H D
          { encrypted_data :=
              flipBit (SecureMessage.encrypt H E plaintext ek mk nonce).encrypted_data i,
            mac := (SecureMessage.encrypt H E plaintext ek mk nonce).mac } ek mk =
        .error (.Encryption "MAC verification failed")) ∧
    (i < 8 * (SecureMessage.encrypt H E plaintext ek mk nonce).mac.length →
      ∀ D, SecureMessage.decrypt H D
          { encrypted_data := (SecureMessage.encrypt H E plaintext ek mk nonce).encrypted_data,
            mac := flipBit (SecureMessage.encrypt H E plaintext ek mk nonce).mac i } ek mk =
        .error (.Encryption "MAC verification failed")) := by
  constructor
  · intro hi D
    apply decrypt_fails_of_bad_mac
    exact create_mac_ne_of_message_ne H hH mk _ _
      (flipBit_ne _ i hi)
  · intro hi D
    apply decrypt_fails_of_bad_mac
    exact fun h => flipBit_ne _ i hi h.symm

/-- Concrete instantiations used by the C6 witness: an identity digest
(injective), a cipher that returns the plaintext, a failing decryptor, an
all-zero 12-byte nonce. -/
def witnessDigest : List Nat → List Nat := id

def witnessCipherE : List Nat → List Nat → List Nat → List Nat := fun _ _ pt => pt

def witnessCipherD : List Nat → List Nat → List Nat → Option (List Nat) := fun _ _ _ => none

def witnessNonce : List Nat := List.replicate 12 0

/-- Witness for C6 at bit 0 of a one-byte plaintext encryption. -/
theorem c6_bit_flip_rejected_before_decryption_witness :
    (0 < 8 * (SecureMessage.encrypt witnessDigest witnessCipherE [5] [3] [1]
        witnessNonce).encrypted_data.length) ∧
      SecureMessage.decrypt witnessDigest witnessCipherD
          { encrypted_data :=
              flipBit (SecureMessage.encrypt witnessDigest witnessCipherE [5] [3] [1]
                witnessNonce).encrypted_data 0,
            mac := (SecureMessage.encrypt witnessDigest witnessCipherE [5] [3] [1]
              witnessNonce).mac } [3] [1] =
        .error (.Encryption "MAC verification failed") :=
  ⟨by decide,
    (c6_bit_flip_rejected_before_decryption witnessDigest (fun _ _ h => h)
        witnessCipherE [5] [3] [1] witnessNonce 0).1 (by decide) witnessCipherD⟩

/-! ## ECDH key exchange (`src/src-tauri/src/encryption.rs`)

The `p256` crate supplies the curve arithmetic; it is modelled by an
arbitrary commutative additive monoid `Point` of curve points with the
`Nat`-scalar action `•` (scalar multiplication), a generator `G`, and a
serialization `pointBytes : Point → List Nat` standing for
`SharedSecret::raw_secret_bytes`.  `EphemeralSecret::random` draws are
passed in as explicit scalars. -/

/-- `SharedSecret` from `src/src-tauri/src/encryption.rs`: the two derived
256-bit keys plus creation time. -/
structure SharedSecret where
  encryption_key : List Nat
  mac_key : List Nat
  created_at : Nat
  deriving DecidableEq, Repr

/-- `KeyPair::derive_key`: digest of shared-secret bytes ‖ purpose info ‖
the fixed protocol constant. -/
def derive_key (H : List Nat → List Nat) (shared_secret info : List Nat) : List Nat :=
  H (shared_secret ++ info ++ KDF_PROTOCOL_LABEL)

/-- `KeyPair`: private scalar plus public point. -/
structure KeyPair (Point : Type) where
  private_key : Nat
  public_key : Point
  deriving DecidableEq

/-- `KeyPair::generate`: draw a random scalar; the public key is the scalar
multiple of the curve generator (`PublicKey::from(&private_key)`). -/
def KeyPair.generate {Point : Type} [AddCommMonoid Point] (G : Point)
    (rngScalar : Nat) : KeyPair Point :=
  { private_key := rngScalar, public_key := rngScalar • G }

/-- `impl Clone for KeyPair`: `EphemeralSecret` cannot be cloned, so the
source generates a brand-new random keypair, ignoring `self` entirely. -/
def KeyPair.clone {Point : Type} [AddCommMonoid Point] (G : Point)
    (rngScalar : Nat) (_self : KeyPair Point) : KeyPair Point :=
  KeyPair.generate G rngScalar

/-- `KeyPair::perform_key_exchange`: Diffie-Hellman shared point
(private scalar times peer public point), serialized and fed through
`derive_key` with the two purpose labels. -/
def KeyPair.perform_key_exchange {Point : Type} [AddCommMonoid Point]
    (H : List Nat → List Nat) (pointBytes : Point → List Nat)
    (kp : KeyPair Point) (peer_public_key : Point) (now : Nat) : SharedSecret :=
  let shared_secret_bytes := pointBytes (kp.private_key • peer_public_key)
  { encryption_key := derive_key H shared_secret_bytes INFO_ENCRYPTION,
    mac_key := derive_key H shared_secret_bytes INFO_MAC,
    created_at := now }

/-- `KeyExchangeManager`: per-peer keypairs and shared secrets (the
`HashMap`s are modelled as association lists with replace-on-insert). -/
structure KeyExchangeManager (Point : Type) where
  key_pairs : List (Nat × KeyPair Point)
  shared_secrets : List (Nat × SharedSecret)
  key_rotation_interval : Nat

/-- `HashMap::insert`: bind `k` to `v`, replacing any existing binding. -/
def insertAssoc {α : Type} (l : List (Nat × α)) (k : Nat) (v : α) : List (Nat × α) :=
  (k, v) :: l.filter (fun p => p.1 ≠ k)

theorem lookup_insertAssoc {α : Type} (l : List (Nat × α)) (k : Nat) (v : α) :
    (insertAssoc l k v).lookup k = some v := by
  simp [insertAssoc, List.lookup]

/-- `KeyExchangeManager::generate_key_pair`: generate a keypair, store
`key_pair.clone()` — which regenerates fresh random material — and return
the original to the caller. -/
def KeyExchangeManager.generate_key_pair {Point : Type} [AddCommMonoid Point] (G : Point)
    (mgr : KeyExchangeManager Point) (peer_id : Nat) (rngGen rngClone : Nat) :
    KeyPair Point × KeyExchangeManager Point :=
  let key_pair := KeyPair.generate G rngGen
  let stored := KeyPair.clone G rngClone key_pair
  (key_pair, { mgr with key_pairs := insertAssoc mgr.key_pairs peer_id stored })

/-- `KeyExchangeManager::get_public_key`: public key of the stored keypair. -/
def KeyExchangeManager.get_public_key {Point : Type}
    (mgr : KeyExchangeManager Point) (peer_id : Nat) : Except MessengerError Point :=
  match mgr.key_pairs.lookup peer_id with
  | some kp => .ok kp.public_key
  | none => .error (.Encryption "No key pair found for peer")

/-- `KeyExchangeManager::perform_key_exchange`: run the exchange with the
*stored* keypair for the peer and cache the resulting shared secret. -/
def KeyExchangeManager.perform_key_exchange {Point : Type} [AddCommMonoid Point]
    (H : List Nat → List Nat) (pointBytes : Point → List Nat)
    (mgr : KeyExchangeManager Point) (peer_id : Nat) (peer_public_key : Point) (now : Nat) :
    Except MessengerError (SharedSecret × KeyExchangeManager Point) :=
  match mgr.key_pairs.lookup peer_id with
  | none => .error (.Encryption "No key pair found for peer")
  | some key_pair =>
    let shared_secret := key_pair.perform_key_exchange H pointBytes peer_public_key now
    .ok (shared_secret,
      { mgr with shared_secrets := insertAssoc mgr.shared_secrets peer_id shared_secret })

/-- C5: for any two generated keypairs A and B, the shared secret A derives
from B's public key equals the shared secret B derives from A's public key:
both the derived encryption keys and the derived MAC keys coincide.
The proof rests on commutativity of the scalar action,
`a • (b • G) = b • (a • G)`, which holds in the P-256 group (and in every
commutative monoid of points). -/
theorem c5_key_exchange_symmetric {Point : Type} [AddCommMonoid Point] (G : Point)
    (H : List Nat → List Nat) (pointBytes : Point → List Nat) (a b now₁ now₂ : Nat) :
    ((KeyPair.generate G a).perform_key_exchange H pointBytes
        (KeyPair.generate G b).public_key now₁).encryption_key =
      ((KeyPair.generate G b).perform_key_exchange H pointBytes
        (KeyPair.generate G a).public_key now₂).encryption_key ∧
    ((KeyPair.generate G a).perform_key_exchange H pointBytes
        (KeyPair.generate G b).public_key now₁).mac_key =
      ((KeyPair.generate G b).perform_key_exchange H pointBytes
        (KeyPair.generate G a).public_key now₂).mac_key := by
  have hshared : a • b • G = b • a • G := smul_comm a b G
  constructor <;>
    simp [KeyPair.perform_key_exchange, KeyPair.generate, derive_key, hshared]

/-- C10 counterexample, instantiated at the point group `ℤ` with generator 1
(the scalar-to-point map `r ↦ r • G` is injective there, as it is on the
P-256 scalar range): `generate_key_pair` with random draws 5 (generate) and
7 (clone) returns a keypair with public key 5 while the manager stores the
regenerated keypair with public key 7, so `get_public_key` disagrees with
the public key handed to the caller — the claim that the stored keypair is
the same keypair is false. -/
theorem c10_counterexample_stored_keypair_differs :
    ((KeyExchangeManager.generate_key_pair (1 : ℤ) ⟨[], [], 100⟩ 3 5 7).1.public_key
        = (5 : ℤ)) ∧
      (KeyExchangeManager.get_public_key
          (KeyExchangeManager.generate_key_pair (1 : ℤ) ⟨[], [], 100⟩ 3 5 7).2 3
        = .ok (7 : ℤ)) ∧
      (5 : ℤ) ≠ (7 : ℤ) := by
  refine ⟨?_, ?_, by norm_num⟩
  · simp [KeyExchangeManager.generate_key_pair, KeyPair.generate]
  · simp [KeyExchangeManager.generate_key_pair, KeyExchangeManager.get_public_key,
      KeyPair.clone, KeyPair.generate, insertAssoc, List.lookup]

/-- C10 amended: `generate_key_pair` returns the freshly generated keypair
but stores its `clone()`, which regenerates new random material: the
manager holds the keypair with scalar `r₂`, `get_public_key` returns
`r₂ • G` — different from the returned `r₁ • G` whenever the two random
scalars map to different points — and a subsequent `perform_key_exchange`
uses the stored private scalar `r₂`, not the private key corresponding to
the public key that was returned to the caller. -/
theorem c10_amended_clone_regenerates {Point : Type} [AddCommMonoid Point] (G : Point)
    (mgr : KeyExchangeManager Point) (peer r₁ r₂ : Nat)
    (H : List Nat → List Nat) (pointBytes : Point → List Nat) (pub : Point) (now : Nat)
    (hne : r₁ • G ≠ r₂ • G) :
    ((KeyExchangeManager.generate_key_pair G mgr peer r₁ r₂).1 = KeyPair.generate G r₁) ∧
      (KeyExchangeManager.get_public_key
          (KeyExchangeManager.generate_key_pair G mgr peer r₁ r₂).2 peer = .ok (r₂ • G)) ∧
      (KeyExchangeManager.get_public_key
          (KeyExchangeManager.generate_key_pair G mgr peer r₁ r₂).2 peer ≠
        .ok (KeyExchangeManager.generate_key_pair G mgr peer r₁ r₂).1.public_key) ∧
      ((KeyExchangeManager.perform_key_exchange H pointBytes
            (KeyExchangeManager.generate_key_pair G mgr peer r₁ r₂).2 peer pub now).map
          Prod.fst =
        .ok ((KeyPair.generate G r₂).perform_key_exchange H pointBytes pub now)) := by
  have hlookup :
      (KeyExchangeManager.generate_key_pair G mgr peer r₁ r₂).2.key_pairs.lookup peer =
        some (KeyPair.generate G r₂) := by
    simp [KeyExchangeManager.generate_key_pair, KeyPair.clone, lookup_insertAssoc]
  refine ⟨rfl, ?_, ?_, ?_⟩
  · simp [KeyExchangeManager.get_public_key, hlookup, KeyPair.generate]
  · simp only [KeyExchangeManager.get_public_key, hlookup]
    simpa [KeyExchangeManager.generate_key_pair, KeyPair.generate] using
      fun h => hne h.symm
  · simp [KeyExchangeManager.perform_key_exchange, hlookup, Except.map]

/-- Witness for the amended C10 at `Point := ℤ`, generator 1, scalars 5, 7. -/
theorem c10_amended_clone_regenerates_witness :
    ((5 : Nat) • (1 : ℤ) ≠ (7 : Nat) • (1 : ℤ)) ∧
      (((KeyExchangeManager.generate_key_pair (1 : ℤ) ⟨[], [], 100⟩ 3 5 7).1
          = KeyPair.generate (1 : ℤ) 5) ∧
        (KeyExchangeManager.get_public_key
            (KeyExchangeManager.generate_key_pair (1 : ℤ) ⟨[], [], 100⟩ 3 5 7).2 3
          = .ok ((7 : Nat) • (1 : ℤ))) ∧
        (KeyExchangeManager.get_public_key
            (KeyExchangeManager.generate_key_pair (1 : ℤ) ⟨[], [], 100⟩ 3 5 7).2 3 ≠
          .ok (KeyExchangeManager.generate_key_pair (1 : ℤ) ⟨[], [], 100⟩ 3 5 7).1.public_key) ∧
        ((KeyExchangeManager.perform_key_exchange id (fun _ => [])
              (KeyExchangeManager.generate_key_pair (1 : ℤ) ⟨[], [], 100⟩ 3 5 7).2 3
              (2 : ℤ) 0).map Prod.fst =
          .ok ((KeyPair.generate (1 : ℤ) 7).perform_key_exchange id (fun _ => [])
            (2 : ℤ) 0))) :=
  ⟨by norm_num,
    c10_amended_clone_regenerates (1 : ℤ) ⟨[], [], 100⟩ 3 5 7 id (fun _ => [])
      (2 : ℤ) 0 (by norm_num)⟩

/-! ## Domain messages (`src/src-tauri/src/types.rs`) -/

inductive SystemMessageLevel where
  | Info | Warning | Error | Success
  deriving DecidableEq, Repr

inductive MessageStatus where
  | Sending | Sent | Delivered | Failed | Acknowledged
  deriving DecidableEq, Repr

/-- `MessageType` from `src/src-tauri/src/types.rs`. -/
inductive MessageType where
  | Text (content : String)
  | File (name : String) (size : Nat) (mime_type : String) (data : Option (List Nat))
      (chunk_index : Option Nat) (total_chunks : Option Nat)
  | System (content : String) (level : SystemMessageLevel)
  | Heartbeat
  | KeyExchange (public_key : List Nat)
  | Disconnect (reason : String)
  | Acknowledgment (message_id : Nat)
  deriving DecidableEq, Repr

/-- `Message` from `src/src-tauri/src/types.rs` (`HashMap<String, String>`
metadata modelled as an association list). -/
structure Message where
  id : Nat
  message_type : MessageType
  timestamp : Nat
  sender_id : Nat
  recipient_id : Option Nat
  status : MessageStatus
  encrypted : Bool
  retry_count : Nat
  metadata : List (String × String)
  deriving DecidableEq, Repr

/-- `Message::is_system`. -/
def Message.is_system (m : Message) : Bool :=
  match m.message_type with
  | .System _ _ => true
  | _ => false

inductive ConnectionStatus where
  | Disconnected | Connecting | Connected | Reconnecting
  | Error (msg : String)
  deriving DecidableEq, Repr

structure ServerInfo where
  id : Nat
  address : String
  port : Nat
  status : ConnectionStatus
  started_at : Nat
  client_count : Nat
  max_clients : Nat
  deriving DecidableEq, Repr

structure ClientInfo where
  id : Nat
  server_address : String
  server_port : Nat
  status : ConnectionStatus
  connected_at : Option Nat
  last_heartbeat : Option Nat
  deriving DecidableEq, Repr

structure NetworkStats where
  messages_sent : Nat
  messages_received : Nat
  bytes_sent : Nat
  bytes_received : Nat
  connection_uptime : Nat
  last_activity : Option Nat
  deriving DecidableEq, Repr

def NetworkStats.initial : NetworkStats :=
  { messages_sent := 0, messages_received := 0, bytes_sent := 0, bytes_received := 0,
    connection_uptime := 0, last_activity := none }

/-! ## Session manager (`src/src-tauri/src/network.rs`, `NetworkManager`) -/

inductive ConnectionType where
  | Server | Client
  deriving DecidableEq, Repr

/-- `mpsc::channel(1000)` capacity from `NetworkManager::new`. -/
def CHANNEL_CAPACITY : Nat := 1000

/-- `NetworkManager`: the session-manager state.  The bounded mpsc channel
is modelled by the list of messages it currently holds
(`outbound_channel`); socket handles, locks and the spawned tasks carry no
state the modelled operations read. -/
structure NetworkManager where
  connection_type : Option ConnectionType
  server_info : Option ServerInfo
  client_info : Option ClientInfo
  stats : NetworkStats
  outbound_channel : List Message
  connection_start_time : Option Nat
  deriving DecidableEq, Repr

/-- `NetworkManager::new`: no session, empty channel. -/
def NetworkManager.new : NetworkManager :=
  { connection_type := none, server_info := none, client_info := none,
    stats := NetworkStats.initial, outbound_channel := [], connection_start_time := none }

/-- `NetworkManager::start_server`: fail `AlreadyConnected` whenever any
session is active, *before* attempting to bind; otherwise the outcome of
`TcpServer::new` (socket bind, passed in as `bindResult`) decides, and only
on success are `server_info`, `connection_type` and the start time set. -/
def NetworkManager.start_server (s : NetworkManager)
    (bindResult : Except MessengerError ServerInfo) (now : Nat) :
    Except MessengerError ServerInfo × NetworkManager :=
  if s.connection_type.isSome then (.error .AlreadyConnected, s)
  else
    match bindResult with
    | .error e => (.error e, s)
    | .ok info =>
        (.ok info,
          { s with server_info := some info, connection_type := some .Server,
                   connection_start_time := some now })

/-- `NetworkManager::connect_to_server`: same gate, client variant;
`connectResult` stands for the outcome of `TcpClient::new`. -/
def NetworkManager.connect_to_server (s : NetworkManager)
    (connectResult : Except MessengerError ClientInfo) (now : Nat) :
    Except MessengerError ClientInfo × NetworkManager :=
  if s.connection_type.isSome then (.error .AlreadyConnected, s)
  else
    match connectResult with
    | .error e => (.error e, s)
    | .ok info =>
        (.ok info,
          { s with client_info := some info, connection_type := some .Client,
                   connection_start_time := some now })

/-- `NetworkManager::stop_server`: only a server session can be stopped;
anything else is `NotConnected`. -/
def NetworkManager.stop_server (s : NetworkManager) :
    Except MessengerError Unit × NetworkManager :=
  match s.connection_type with
  | some .Server =>
      (.ok (), { s with server_info := none, connection_type := none,
                        connection_start_time := none })
  | _ => (.error .NotConnected, s)

/-- `NetworkManager::disconnect`: stop the server or drop the client
session; `NotConnected` when none is active. -/
def NetworkManager.disconnect (s : NetworkManager) :
    Except MessengerError Unit × NetworkManager :=
  match s.connection_type with
  | some .Server => s.stop_server
  | some .Client =>
      (.ok (), { s with client_info := none, connection_type := none,
                        connection_start_time := none })
  | none => (.error .NotConnected, s)

/-- `NetworkManager::send_message`: push onto the bounded mpsc channel.
The manager itself holds the receiver, so `Sender::send` cannot fail
(the `Internal` error branch is dead); a full channel blocks the async
caller until space frees, it neither errors nor drops.  No check of
`connection_type` or any other session state is performed. -/
def NetworkManager.send_message (s : NetworkManager) (message : Message) :
    Except MessengerError Unit × NetworkManager :=
  (.ok (), { s with outbound_channel := s.outbound_channel ++ [message] })

/-- `commands::message::send_message`
(`src/src-tauri/src/commands/message.rs`): store the message, then send it
through the network only if a `NetworkManager` is present in `AppState`;
with no manager stored the command fails `NotConnected` (after the message
was already written to storage). -/
def sendMessageCommand (storage : List Message)
    (network_manager : Option NetworkManager) (message : Message) :
    Except MessengerError Nat × List Message × Option NetworkManager :=
  let storage' := storage ++ [message]
  match network_manager with
  | some mgr =>
      match mgr.send_message message with
      | (.ok _, mgr') => (.ok message.id, storage', some mgr')
      | (.error e, mgr') => (.error e, storage', some mgr')
  | none => (.error .NotConnected, storage', none)

/-- A concrete heartbeat message used by counterexamples. -/
def msgZero : Message :=
  { id := 0, message_type := .Heartbeat, timestamp := 0, sender_id := 0,
    recipient_id := none, status := .Sent, encrypted := false, retry_count := 0,
    metadata := [] }

/-- C4 counterexample: on a fresh `NetworkManager` (no session,
`connection_type = None`), `send_message` returns `Ok` and enqueues the
message into the outbound channel — it does not fail `NotConnected` and it
does enqueue `m`. -/
theorem c4_counterexample_send_without_session :
    NetworkManager.new.connection_type = none ∧
      NetworkManager.new.send_message msgZero =
        (.ok (), { NetworkManager.new with outbound_channel := [msgZero] }) :=
  ⟨rfl, rfl⟩

/-- C4 amended: `NetworkManager::send_message` performs no session check —
with `connection_type = None` it still returns `Ok` and enqueues the
message.  The `NotConnected` failure lives one layer up: the Tauri
`send_message` command fails `NotConnected` exactly when no
`NetworkManager` is stored in `AppState` (before any successful
start/connect, or after stop/disconnect removed it), and then nothing is
enqueued to any network channel (though the message was already persisted
to storage before the check). -/
theorem c4_amended_send_is_unchecked (s : NetworkManager) (m : Message)
    (storage : List Message) (hs : s.connection_type = none) :
    (s.send_message m =
        (.ok (), { s with outbound_channel := s.outbound_channel ++ [m] })) ∧
      sendMessageCommand storage none m = (.error .NotConnected, storage ++ [m], none) :=
  ⟨rfl, rfl⟩

/-- Witness for the amended C4 on a fresh manager. -/
theorem c4_amended_send_is_unchecked_witness :
    (NetworkManager.new.connection_type = none) ∧
      ((NetworkManager.new.send_message msgZero =
          (.ok (), { NetworkManager.new with
                      outbound_channel := NetworkManager.new.outbound_channel ++ [msgZero] })) ∧
        sendMessageCommand [] none msgZero = (.error .NotConnected, [] ++ [msgZero], none)) :=
  ⟨rfl, c4_amended_send_is_unchecked NetworkManager.new msgZero [] rfl⟩

/-- C7: `start_server` called a second time without an intervening stop
fails with `AlreadyConnected` and leaves the session state unchanged;
`disconnect` and `stop_server` called with no active session fail with
`NotConnected` and leave the state unchanged; after a successful start the
single optional `connection_type` slot holds `Server`, so at most one
session (server or client) is active at any time. -/
theorem c7_session_lifecycle (s : NetworkManager)
    (bind₁ bind₂ : Except MessengerError ServerInfo) (now₁ now₂ : Nat)
    (info : ServerInfo) :
    ((s.start_server bind₁ now₁).1 = .ok info →
        ((s.start_server bind₁ now₁).2.connection_type = some .Server ∧
          (s.start_server bind₁ now₁).2.start_server bind₂ now₂ =
            (.error .AlreadyConnected, (s.start_server bind₁ now₁).2))) ∧
      (s.connection_type = none → s.disconnect = (.error .NotConnected, s)) ∧
      (s.connection_type = none → s.stop_server = (.error .NotConnected, s)) := by
  refine ⟨?_, ?_, ?_⟩
  · intro h
    unfold NetworkManager.start_server at h ⊢
    by_cases hc : s.connection_type.isSome
    · simp [hc] at h
    · cases bind₁ with
      | error e => simp [hc] at h
      | ok i => simp [hc]
  · intro h
    unfold NetworkManager.disconnect
    rw [h]
  · intro h
    unfold NetworkManager.stop_server
    rw [h]

/-- Witness for C7: a fresh manager, a successful bind, a no-session state. -/
theorem c7_session_lifecycle_witness :
    ((NetworkManager.new.start_server
          (.ok { id := 1, address := "0.0.0.0", port := 8000, status := .Connected,
                 started_at := 0, client_count := 0, max_clients := 1 }) 0).1 =
        .ok { id := 1, address := "0.0.0.0", port := 8000, status := .Connected,
              started_at := 0, client_count := 0, max_clients := 1 }) ∧
      (NetworkManager.new.connection_type = none) ∧
      (((NetworkManager.new.start_server
            (.ok { id := 1, address := "0.0.0.0", port := 8000, status := .Connected,
                   started_at := 0, client_count := 0, max_clients := 1 }) 0).2.connection_type =
          some .Server ∧
        (NetworkManager.new.start_server
            (.ok { id := 1, address := "0.0.0.0", port := 8000, status := .Connected,
                   started_at := 0, client_count := 0, max_clients := 1 }) 0).2.start_server
            (.ok { id := 1, address := "0.0.0.0", port := 8000, status := .Connected,
                   started_at := 0, client_count := 0, max_clients := 1 }) 1 =
          (.error .AlreadyConnected,
            (NetworkManager.new.start_server
              (.ok { id := 1, address := "0.0.0.0", port := 8000, status := .Connected,
                     started_at := 0, client_count := 0, max_clients := 1 }) 0).2)) ∧
        NetworkManager.new.disconnect = (.error .NotConnected, NetworkManager.new) ∧
        NetworkManager.new.stop_server = (.error .NotConnected, NetworkManager.new)) := by
  have h := c7_session_lifecycle NetworkManager.new
    (.ok { id := 1, address := "0.0.0.0", port := 8000, status := .Connected,
           started_at := 0, client_count := 0, max_clients := 1 })
    (.ok { id := 1, address := "0.0.0.0", port := 8000, status := .Connected,
           started_at := 0, client_count := 0, max_clients := 1 }) 0 1
    { id := 1, address := "0.0.0.0", port := 8000, status := .Connected,
      started_at := 0, client_count := 0, max_clients := 1 }
  exact ⟨rfl, rfl, h.1 rfl, h.2.1 rfl, h.2.2 rfl⟩

/-! ## Server per-peer read loop (`src/src-tauri/src/network.rs`,
`TcpServer::handle_client_messages`, and
`src/src-tauri/src/protocol.rs`, `ProtocolHandler::receive_message`) -/

/-- `ClientConnection` from `src/src-tauri/src/network.rs`: the per-peer
record registered on accept (with `shared_secret: None` — nothing in the
code ever installs a secret). -/
structure ClientConnection where
  id : Nat
  last_heartbeat : Nat
  shared_secret : Option SharedSecret
  deriving DecidableEq, Repr

/-- `ProtocolHandler::receive_message`: read exactly 8 header bytes, decode
the header, read exactly `header.length` payload bytes, then deserialize
the payload with `serde_json` (modelled by the parameter `deser`) — the
header flags, in particular the encrypted bit, are never consulted, and no
key material enters this function.  `stream` is the byte sequence the
socket delivers for this read. -/
def ProtocolHandler.receive_message (deser : List Nat → Option Message)
    (stream : List Nat) : Except MessengerError Message :=
  if stream.length < 8 then
    .error (.Protocol "Failed to read header")
  else
    match MessageHeader.from_bytes (stream.take 8) with
    | .error e => .error e
    | .ok header =>
        if (stream.drop 8).length < header.length then
          .error (.Protocol "Failed to read message data")
        else
          match deser ((stream.drop 8).take header.length) with
          | some message => .ok message
          | none => .error (.Protocol "Failed to deserialize message")

/-- Result of one pass of the per-peer read loop: the peer table, the
aggregate stats, the message pushed to the shared output channel (if
any), and whether the loop keeps running. -/
structure IterationOutcome where
  clients : List (Nat × ClientConnection)
  stats : NetworkStats
  forwarded : Option Message
  continues : Bool
  deriving DecidableEq, Repr

/-- One iteration of the loop in `TcpServer::handle_client_messages`: take
the peer's record out of the table (break if absent); receive one frame; on
success refresh the record's heartbeat, forward the message to the output
channel, bump `messages_received`/`last_activity` and re-insert the record;
on any receive error break, leaving the record removed (the loop epilogue's
second `remove` is a no-op).  The `key_manager` argument of the Rust
function is unused (`_key_manager`), so no MAC verification or decryption
can occur on this path. -/
def TcpServer.handle_client_iteration (deser : List Nat → Option Message)
    (client_id : Nat) (stream : List Nat) (now : Nat)
    (clients : List (Nat × ClientConnection)) (stats : NetworkStats) : IterationOutcome :=
  match clients.lookup client_id with
  | none =>
      { clients := clients.filter (fun p => p.1 ≠ client_id), stats := stats,
        forwarded := none, continues := false }
  | some client =>
      let removed := clients.filter (fun p => p.1 ≠ client_id)
      match ProtocolHandler.receive_message deser stream with
      | .ok message =>
          { clients := insertAssoc removed client_id { client with last_heartbeat := now },
            stats := { stats with messages_received := stats.messages_received + 1,
                                  last_activity := some now },
            forwarded := some message,
            continues := true }
      | .error _ =>
          { clients := removed, stats := stats, forwarded := none, continues := false }

/-- Payload of the C2 counterexample frame: the ASCII bytes of a JSON
object (every `serde_json` serialization of a `Message` starts with the
byte 0x7B and deserializes successfully). -/
def c2Payload : List Nat := [123, 34, 105, 100, 34, 58, 48, 125]

/-- The C2 counterexample frame: supported version, kind Text, flags 0x01
(encrypted bit set), 8-byte payload. -/
def c2Stream : List Nat := MessageHeader.to_bytes ⟨1, 1, 1, 8⟩ ++ c2Payload

/-- Stand-in for `serde_json::from_slice::<Message>` on the counterexample
frame: parses `c2Payload` to a concrete message and rejects other inputs. -/
def c2Deser : List Nat → Option Message :=
  fun b => if b = c2Payload then some msgZero else none

/-- The peer's connection record, exactly as registered on accept. -/
def c2Client : ClientConnection := { id := 7, last_heartbeat := 0, shared_secret := none }

/-- C2 counterexample: a frame whose header has the encrypted flag set is
deserialized and forwarded to the output channel by the server's per-peer
loop even though its payload is not a well-formed `SecureMessage`
container at all (so no MAC can have been verified and no decryption can
have occurred), and the session's record holds no `SharedSecret` to
decrypt with in the first place — refuting the claim that the MAC is
verified and the payload decrypted before the message is forwarded. -/
theorem c2_counterexample_encrypted_frame_forwarded_unverified :
    ((MessageHeader.from_bytes (c2Stream.take 8)).map (fun h => h.flags &&& 1) = .ok 1) ∧
      (TcpServer.handle_client_iteration c2Deser 7 c2Stream 5
          [(7, c2Client)] NetworkStats.initial).forwarded = some msgZero ∧
      c2Client.shared_secret = none ∧
      SecureMessage.from_bytes c2Payload = .error (.Encryption "Invalid secure message data") := by
  refine ⟨by decide, by decide, rfl, by decide⟩

/-- C2 amended: the server's per-peer read loop ignores the encrypted flag
entirely — whatever the header flags, the forwarded message is exactly the
direct `serde_json` deserialization of the raw payload (no MAC
verification, no decryption; the loop has no access to any key material),
and any receive/parse error drops the connection, leaves its record
removed, and ends the loop with no retry. -/
theorem c2_amended_loop_never_decrypts (deser : List Nat → Option Message)
    (client_id now : Nat) (stream : List Nat)
    (clients : List (Nat × ClientConnection)) (stats : NetworkStats)
    (client : ClientConnection) (hc : clients.lookup client_id = some client) :
    (∀ message, ProtocolHandler.receive_message deser stream = .ok message →
        TcpServer.handle_client_iteration deser client_id stream now clients stats =
          { clients := insertAssoc (clients.filter (fun p => p.1 ≠ client_id)) client_id
                { client with last_heartbeat := now },
            stats := { stats with messages_received := stats.messages_received + 1,
                                  last_activity := some now },
            forwarded := some message, continues := true }) ∧
      (∀ e, ProtocolHandler.receive_message deser stream = .error e →
        TcpServer.handle_client_iteration deser client_id stream now clients stats =
          { clients := clients.filter (fun p => p.1 ≠ client_id), stats := stats,
            forwarded := none, continues := false }) := by
  constructor
  · intro message hrecv
    unfold TcpServer.handle_client_iteration
    rw [hc, hrecv]
  · intro e hrecv
    unfold TcpServer.handle_client_iteration
    rw [hc, hrecv]

/-- Witness for the amended C2 on the concrete encrypted-flag frame. -/
theorem c2_amended_loop_never_decrypts_witness :
    TcpServer.handle_client_iteration c2Deser 7 c2Stream 5
        [(7, c2Client)] NetworkStats.initial =
      { clients := insertAssoc ([(7, c2Client)].filter (fun p => p.1 ≠ 7)) 7
            { c2Client with last_heartbeat := 5 },
        stats := { NetworkStats.initial with
                    messages_received := NetworkStats.initial.messages_received + 1,
                    last_activity := some 5 },
        forwarded := some msgZero, continues := true } :=
  (c2_amended_loop_never_decrypts c2Deser 7 5 c2Stream [(7, c2Client)]
      NetworkStats.initial c2Client rfl).1 msgZero (by decide)

/-! ## UDP discovery (`src/src-tauri/src/discovery.rs`) -/

inductive DiscoveryMessageType where
  | ServerAnnounce | ClientRequest | ServerResponse
  deriving DecidableEq, Repr

structure DiscoveryMessage where
  message_type : DiscoveryMessageType
  server_id : Nat
  server_name : String
  server_port : Nat
  timestamp : Nat
  deriving DecidableEq, Repr

structure DiscoveredServer where
  id : Nat
  name : String
  address : String
  port : Nat
  discovered_at : Nat
  last_seen : Nat
  deriving DecidableEq, Repr

/-- One datagram receipt inside the discovery window: the `serde_json`
parse result of the received buffer (`none` for malformed datagrams, which
are ignored), the sender address, and the wall-clock receipt time
(`Utc::now` at processing). -/
structure DiscoveryEvent where
  parsed : Option DiscoveryMessage
  addr : String
  now : Nat
  deriving DecidableEq, Repr

/-- The body of the `discover_servers` receive loop for one datagram:
accept `ServerResponse`/`ServerAnnounce`, build a `DiscoveredServer` whose
`discovered_at` and `last_seen` are both the receipt time, and append it —
but only when no entry with the same id exists yet ("Avoid duplicates");
an existing entry is left untouched. -/
def NetworkDiscovery.processDatagram (discovered_servers : List DiscoveredServer)
    (ev : DiscoveryEvent) : List DiscoveredServer :=
  match ev.parsed with
  | none => discovered_servers
  | some dm =>
      if dm.message_type = .ServerResponse ∨ dm.message_type = .ServerAnnounce then
        let server : DiscoveredServer :=
          { id := dm.server_id, name := dm.server_name, address := ev.addr,
            port := dm.server_port, discovered_at := ev.now, last_seen := ev.now }
        if discovered_servers.any (fun s => s.id = server.id) then discovered_servers
        else discovered_servers ++ [server]
      else discovered_servers

/-- `NetworkDiscovery::discover_servers`, restricted to its receive loop:
fold the per-datagram body over the datagrams received within the timeout
window, starting from the empty list. -/
def NetworkDiscovery.discover_servers (events : List DiscoveryEvent) :
    List DiscoveredServer :=
  events.foldl NetworkDiscovery.processDatagram []

/-- First receipt of the C9 counterexample: a `ServerAnnounce` for server
id 1, name "srv", port 8000, received at time 10. -/
def c9Event1 : DiscoveryEvent :=
  { parsed := some ⟨.ServerAnnounce, 1, "srv", 8000, 100⟩,
    addr := "192.168.0.9", now := 10 }

/-- Second receipt, same server id, received at the later time 20. -/
def c9Event2 : DiscoveryEvent :=
  { parsed := some ⟨.ServerAnnounce, 1, "srv", 8000, 101⟩,
    addr := "192.168.0.9", now := 20 }

/-- C9 counterexample: two `ServerAnnounce` datagrams with the same server
id received at times 10 and 20 yield one entry whose `last_seen` is 10 —
the *first* receipt time — not the later of the two timestamps (20), so
the claimed `last_seen = later receipt` is false. -/
theorem c9_counterexample_last_seen_keeps_first :
    NetworkDiscovery.discover_servers [c9Event1, c9Event2] =
        [{ id := 1, name := "srv", address := "192.168.0.9", port := 8000,
           discovered_at := 10, last_seen := 10 }] ∧
      (10 : Nat) ≠ max 10 20 := by
  refine ⟨by decide, by decide⟩

/-- C9 amended: two `ServerAnnounce`/`ServerResponse` datagrams sharing a
server id within one discovery window yield exactly one `DiscoveredServer`
entry for that id, built entirely from the first datagram: its `last_seen`
(and `discovered_at`) equal the *first* receipt timestamp, and the second
datagram is discarded without updating the entry. -/
theorem c9_amended_duplicate_discarded (sid port₁ port₂ t₁ t₂ ts₁ ts₂ : Nat)
    (name₁ name₂ addr₁ addr₂ : String) (k₁ k₂ : DiscoveryMessageType)
    (h₁ : k₁ = .ServerResponse ∨ k₁ = .ServerAnnounce)
    (h₂ : k₂ = .ServerResponse ∨ k₂ = .ServerAnnounce) :
    NetworkDiscovery.discover_servers
        [⟨some ⟨k₁, sid, name₁, port₁, ts₁⟩, addr₁, t₁⟩,
         ⟨some ⟨k₂, sid, name₂, port₂, ts₂⟩, addr₂, t₂⟩] =
      [{ id := sid, name := name₁, address := addr₁, port := port₁,
         discovered_at := t₁, last_seen := t₁ }] := by
  simp [NetworkDiscovery.discover_servers, NetworkDiscovery.processDatagram, h₁, h₂]

/-- Witness for the amended C9 at the concrete counterexample events. -/
theorem c9_amended_duplicate_discarded_witness :
    NetworkDiscovery.discover_servers [c9Event1, c9Event2] =
      [{ id := 1, name := "srv", address := "192.168.0.9", port := 8000,
         discovered_at := 10, last_seen := 10 }] :=
  c9_amended_duplicate_discarded 1 8000 8000 10 20 100 101 "srv" "srv"
    "192.168.0.9" "192.168.0.9" .ServerAnnounce .ServerAnnounce
    (Or.inr rfl) (Or.inr rfl)

end TrMessenger
